import Mathlib

/-!
Shallow embedding of the podcast guest tracker's relevance-scoring core
(`relevance_scoring_engine.py`) and orchestration layer
(`podcast_guest_tracker.py`).

Python floats are modelled as exact rationals (`ℚ`); Python's `round`
(banker's rounding) is modelled by `pyRound`.  Python dictionaries with
`.get`-defaults are modelled as structures whose fields carry the
corresponding default values; a field whose absent-key default differs
between call sites (`name`, `previous_podcasts`) is modelled as `Option`.
-/

namespace PodcastTracker

/-! ### Python string primitives -/

/-- Model of Python `str.lower()` (ASCII case folding). -/
def pyLower (s : String) : String := ⟨s.data.map Char.toLower⟩

/-- `l` starts with `n` (contiguous match from the head). -/
def startsWithList : List Char → List Char → Bool
  | [], _ => true
  | _ :: _, [] => false
  | a :: as, b :: bs => a == b && startsWithList as bs

/-- `n` occurs as a contiguous sublist of `hay`. -/
def substrList (n : List Char) : List Char → Bool
  | [] => startsWithList n []
  | c :: cs => startsWithList n (c :: cs) || substrList n cs

/-- Model of Python `needle in hay` on strings: contiguous substring test.
Note that the empty string is a substring of every string, as in Python. -/
def pyIn (needle hay : String) : Bool := substrList needle.data hay.data

/-- Model of Python `str.split()` with no argument: split on runs of spaces,
dropping empty pieces. -/
def splitWsAux : List Char → List Char → List String
  | [], acc => if acc.isEmpty then [] else [⟨acc.reverse⟩]
  | c :: cs, acc =>
    if c == ' ' then
      if acc.isEmpty then splitWsAux cs [] else ⟨acc.reverse⟩ :: splitWsAux cs []
    else splitWsAux cs (c :: acc)

def pySplitWs (s : String) : List String := splitWsAux s.data []

/-- Model of Python `str.replace(c, "")`: drop every occurrence of `c`. -/
def removeChar (s : String) (c : Char) : String := ⟨s.data.filter (fun d => d ≠ c)⟩

/-- Parse a non-empty run of decimal digits. -/
def parseDigits? (cs : List Char) : Option ℕ :=
  if cs.isEmpty then none
  else cs.foldl (fun acc? c =>
    acc?.bind (fun acc => if c.isDigit then some (acc * 10 + (c.toNat - 48)) else none))
    (some 0)

/-- Digits of a decimal string, split at the single optional dot:
`(negative sign present, integer-part value, fraction-part value,
fraction-part length)`. -/
def parseFloatParts (s : String) : Option (Bool × ℕ × ℕ × ℕ) :=
  let signed := s.data
  let neg := signed.head? = some '-'
  let body := if neg then signed.tail else signed
  match body.splitOn '.' with
  | [ip] => (parseDigits? ip).map (fun n => (neg, n, 0, 0))
  | [ip, fp] =>
    if ip.isEmpty && fp.isEmpty then none
    else
      let ipv : Option ℕ := if ip.isEmpty then some 0 else parseDigits? ip
      let fpv : Option ℕ := if fp.isEmpty then some 0 else parseDigits? fp
      match ipv, fpv with
      | some i, some f => some (neg, i, f, fp.length)
      | _, _ => none
  | _ => none

def partsToQ (p : Bool × ℕ × ℕ × ℕ) : ℚ :=
  (if p.1 then (-1 : ℚ) else 1) * ((p.2.1 : ℚ) + (p.2.2.1 : ℚ) / (10 : ℚ) ^ p.2.2.2)

/-- Model of Python `float()` on plain decimal strings (digits with at most one
dot, optional leading minus); any other string fails, modelling the
`except: pass` around the follower-count conversion. -/
def parseFloatQ (s : String) : Option ℚ := (parseFloatParts s).map partsToQ

/-- Model of Python `round` on floats: round half to even. -/
def pyRound (q : ℚ) : ℤ :=
  let f := ⌊q⌋
  let r := q - (f : ℚ)
  if r < 1/2 then f
  else if 1/2 < r then f + 1
  else if f % 2 = 0 then f else f + 1

/-! ### Data model -/

/-- `extraction_metadata` sub-record of a guest profile; `.get` defaults 0. -/
structure ExtractionMetadata where
  data_quality_score : ℤ := 0
  confidence_score : ℤ := 0
deriving DecidableEq

/-- Guest profile record as consumed by the scorer.  Each field's default is
the `.get` default the source uses for an absent key.  `name` is `Option`
because the source defaults it to "Unknown Guest" in one place and to the
empty string in another.  `previous_podcasts` is `Option` because its
absent-key default in `generate_interview_recommendations` is the singleton
list "Unknown"; a present-but-empty list (which would make that lookup raise
in the source) is outside the modelled input space. -/
structure GuestProfile where
  name : Option String := none
  expertise_areas : List String := []
  key_topics : List String := []
  authority_indicators : List String := []
  social_following : List (String × String) := []
  previous_podcasts : Option (List String) := none
  popularity_indicators : List String := []
  recent_activities : List String := []
  potential_interview_topics : List String := []
  industry : String := ""
  bio_summary : String := ""
  extraction_metadata : ExtractionMetadata := {}
deriving DecidableEq

/-- The inner `channel_dna` record (the source reads
`host_analysis.get('channel_dna', {}).get('channel_dna', {})`; the double
nesting is flattened here). -/
structure ChannelDNA where
  primary_topics : List String := []
  audience_profile : String := ""
  preferred_guest_types : List String := []
  engagement_drivers : List String := []
  content_style : String := ""
deriving DecidableEq

/-- One sampled video; only the title is read by the scorer. -/
structure Video where
  title : String := ""
deriving DecidableEq

/-- Host analysis record as consumed by the scorer. -/
structure HostAnalysis where
  channel_dna : ChannelDNA := {}
  raw_video_data : List Video := []
  videos_analyzed : ℤ := 0
deriving DecidableEq

/-- Scoring weights (`self.weights` in `GuestRelevanceScorer.__init__`). -/
structure Weights where
  topic_alignment : ℚ
  authority_score : ℚ
  audience_appeal : ℚ
  uniqueness_factor : ℚ
  engagement_potential : ℚ
deriving DecidableEq

def defaultWeights : Weights :=
  { topic_alignment := 0.35
    authority_score := 0.25
    audience_appeal := 0.20
    uniqueness_factor := 0.10
    engagement_potential := 0.10 }

/-! ### Sub-score algorithms (`relevance_scoring_engine.py`) -/

/-- Build the lowercase keyword set: split each item into words, keep words of
length > 3, deduplicate preserving first-insertion order (a Python `set` is
modelled as a duplicate-free list; every use below is order-independent). -/
def keywordSet (items : List String) : List String :=
  items.foldl (fun acc item =>
    (pySplitWs (pyLower item)).foldl (fun a w =>
      if 3 < w.data.length then (if a.contains w then a else a ++ [w]) else a) acc) []

/-- Count guest keywords having at least one channel keyword that contains or
is contained in them (the inner `break` makes each guest keyword count at most
once). -/
def countKeywordMatches (gks cks : List String) : ℕ :=
  (gks.filter (fun k => cks.any (fun ck => pyIn k ck || pyIn ck k))).length

/-- The direct-match bonus loop: +0.2, re-capped at 1.0 each time, for every
(expertise, topic) pair whose raw strings match as substrings. -/
def directMatchBoost (guest_expertise channel_topics : List String) (s : ℚ) : ℚ :=
  guest_expertise.foldl (fun acc e =>
    channel_topics.foldl (fun acc2 t =>
      if pyIn (pyLower e) (pyLower t) || pyIn (pyLower t) (pyLower e) then
        min 1 (acc2 + 0.2)
      else acc2) acc) s

def calculate_topic_alignment (g : GuestProfile) (h : HostAnalysis) : ℚ :=
  let guest_expertise := g.expertise_areas
  let guest_topics := g.key_topics
  let channel_topics := h.channel_dna.primary_topics
  if guest_expertise.isEmpty || channel_topics.isEmpty then 0.5
  else
    let guest_keywords := keywordSet (guest_expertise ++ guest_topics)
    let channel_keywords := keywordSet channel_topics
    if channel_keywords.isEmpty then 0.5
    else
      let nMatches := countKeywordMatches guest_keywords channel_keywords
      let alignment := min 1 ((nMatches : ℚ) / max 1 (channel_keywords.length : ℚ))
      directMatchBoost guest_expertise channel_topics alignment

def strongAuthorityTerms : List String :=
  ["founder", "ceo", "author", "expert", "award", "professor", "phd", "leader"]

/-- Follower count from a Twitter-style string: K/M suffixes scale by 10^3 and
10^6; otherwise commas are stripped and the rest parsed as a float. -/
def twitterFollowers? (tf : String) : Option ℚ :=
  let low := pyLower tf
  if pyIn "k" low then (parseFloatQ (removeChar low 'k')).map (fun q => q * 1000)
  else if pyIn "m" low then (parseFloatQ (removeChar low 'm')).map (fun q => q * 1000000)
  else parseFloatQ (removeChar tf ',')

/-- Dict lookup with default "unknown", as in
`social_following.get(platform, 'unknown')`. -/
def socialGet (sf : List (String × String)) (p : String) : String :=
  (((sf.find? (fun kv => kv.1 = p)).map Prod.snd)).getD "unknown"

def followerBonus (f : ℚ) : ℚ :=
  if 1000000 < f then 0.2
  else if 100000 < f then 0.15
  else if 10000 < f then 0.1
  else if 1000 < f then 0.05
  else 0

def calculate_authority_score (g : GuestProfile) (_h : HostAnalysis) : ℚ :=
  let base : ℚ := 0.5
  let s1 :=
    if g.authority_indicators.isEmpty then base
    else
      let strong := (g.authority_indicators.filter (fun ind =>
        strongAuthorityTerms.any (fun t => pyIn t (pyLower ind)))).length
      base + min 0.3 ((strong : ℚ) * 0.1)
  let s2 :=
    if g.social_following.isEmpty then s1
    else
      let tw := socialGet g.social_following "twitter"
      let s2a :=
        if tw ≠ "unknown" then
          match twitterFollowers? tw with
          | none => s1
          | some f => s1 + followerBonus f
        else s1
      let li := socialGet g.social_following "linkedin"
      if li ≠ "unknown" && pyIn "500+" li then s2a + 0.05 else s2a
  let prev := g.previous_podcasts.getD []
  let s3 :=
    match prev with
    | [] => s2
    | p :: _ => if p ≠ "Unable to determine" then s2 + min 0.1 ((prev.length : ℚ) * 0.02) else s2
  min 1 s3

def calculate_audience_appeal (g : GuestProfile) (h : HostAnalysis) : ℚ :=
  let audience_profile := h.channel_dna.audience_profile
  let base : ℚ := 0.6
  let s1 :=
    if g.social_following.isEmpty then base
    else
      let platforms := (g.social_following.filter (fun kv =>
        kv.2 ≠ "" && kv.2 ≠ "unknown")).length
      base + min 0.2 ((platforms : ℚ) * 0.05)
  let s2 :=
    if g.popularity_indicators.isEmpty then s1
    else s1 + min 0.2 ((g.popularity_indicators.length : ℚ) * 0.05)
  let s3 :=
    if audience_profile ≠ "" && (g.industry ≠ "" || g.bio_summary ≠ "") then
      let audience_keywords := pySplitWs (pyLower audience_profile)
      let guest_text := pyLower (g.industry ++ " " ++ g.bio_summary)
      let nMatches := (audience_keywords.filter (fun k =>
        3 < k.data.length && pyIn k guest_text)).length
      s2 + min 0.2 ((nMatches : ℚ) * 0.04)
    else s2
  min 1 s3

/-- The title-scanning loop of `calculate_uniqueness_factor`: returns whether
the guest name was found in a title (in which case scanning stops) together
with the count of expertise-matching titles accumulated up to that point. -/
def uniquenessScan (guest_name : String) (guest_expertise : List String) :
    List Video → Bool × ℕ
  | [] => (false, 0)
  | v :: vs =>
    let title := pyLower v.title
    if pyIn guest_name title then (true, 0)
    else
      let inc : ℕ := if guest_expertise.any (fun e => pyIn e title) then 1 else 0
      let rest := uniquenessScan guest_name guest_expertise vs
      (rest.1, inc + rest.2)

/-- The unique-industry bonus condition: the guest's (lowercased, non-empty)
industry string is a substring of none of the host's primary topics. -/
def industryBonusApplies (g : GuestProfile) (h : HostAnalysis) : Bool :=
  let gi := pyLower g.industry
  gi ≠ "" && !((h.channel_dna.primary_topics.map pyLower).any (fun t => pyIn gi t))

def calculate_uniqueness_factor (g : GuestProfile) (h : HostAnalysis) : ℚ :=
  let guest_name := pyLower (g.name.getD "")
  let guest_expertise := g.expertise_areas.map pyLower
  let scan := uniquenessScan guest_name guest_expertise h.raw_video_data
  let s0 : ℚ := 0.7
  let s1 := if scan.1 then s0 - 0.3 else s0
  let s2 := if 0 < scan.2 then s1 - min 0.3 ((scan.2 : ℚ) * 0.05) else s1
  let s3 := if industryBonusApplies g h then s2 + 0.1 else s2
  max 0.1 (min 1 s3)

def timelyTerms : List String := ["recent", "new", "launch", "announce", "publish", "release"]

def calculate_engagement_potential (g : GuestProfile) (h : HostAnalysis) : ℚ :=
  let engagement_drivers := h.channel_dna.engagement_drivers
  let s0 : ℚ := 0.5
  let timely := (g.recent_activities.filter (fun a =>
    timelyTerms.any (fun t => pyIn t (pyLower a)))).length
  let s1 := s0 + min 0.2 ((timely : ℚ) * 0.05)
  let s2 :=
    if !engagement_drivers.isEmpty && !g.key_topics.isEmpty then
      let nMatches := (engagement_drivers.filter (fun d =>
        g.key_topics.any (fun t =>
          pyIn (pyLower d) (pyLower t) || pyIn (pyLower t) (pyLower d)))).length
      s1 + min 0.3 ((nMatches : ℚ) * 0.1)
    else s1
  let prev := g.previous_podcasts.getD []
  let s3 :=
    match prev with
    | [] => s2
    | p :: _ => if p ≠ "Unable to determine" then s2 + min 0.1 ((prev.length : ℚ) * 0.02) else s2
  min 1 s3

/-! ### Recommendation, strengths, concerns, confidence -/

def determine_recommendation (overall_score : ℤ) : String :=
  if 85 ≤ overall_score then "HIGHLY_RECOMMENDED"
  else if 70 ≤ overall_score then "RECOMMENDED"
  else if 55 ≤ overall_score then "CONSIDER"
  else if 40 ≤ overall_score then "LOW_PRIORITY"
  else "NOT_RECOMMENDED"

/-- Rank of a tier, for stating monotonicity (higher is better). -/
def tierRank (tier : String) : ℕ :=
  if tier = "HIGHLY_RECOMMENDED" then 4
  else if tier = "RECOMMENDED" then 3
  else if tier = "CONSIDER" then 2
  else if tier = "LOW_PRIORITY" then 1
  else 0

def highStrengthMsg : String → Option String
  | "topic_alignment" => some "Strong alignment with channel topics"
  | "authority_score" => some "High authority/credibility in their field"
  | "audience_appeal" => some "Strong potential audience appeal"
  | "uniqueness_factor" => some "Brings fresh perspective to the channel"
  | "engagement_potential" => some "High potential for audience engagement"
  | _ => none

def moderateStrengthMsg : String → Option String
  | "topic_alignment" => some "Good alignment with channel topics"
  | "authority_score" => some "Solid credentials in their field"
  | "audience_appeal" => some "Appealing to channel audience"
  | "uniqueness_factor" => some "Relatively fresh perspective"
  | "engagement_potential" => some "Good potential for engagement"
  | _ => none

def concernMsg : String → Option String
  | "topic_alignment" => some "Limited alignment with channel topics"
  | "authority_score" => some "Limited authority/credibility in relevant fields"
  | "audience_appeal" => some "May not appeal to channel audience"
  | "uniqueness_factor" => some "Similar to previous guests/content"
  | "engagement_potential" => some "Limited potential for audience engagement"
  | _ => none

/-- The scores dict, in its Python insertion order. -/
def scoresList (t a ap u e : ℚ) : List (String × ℚ) :=
  [("topic_alignment", t), ("authority_score", a), ("audience_appeal", ap),
   ("uniqueness_factor", u), ("engagement_potential", e)]

def identify_key_strengths (t a ap u e : ℚ) : List String :=
  let scores := scoresList t a ap u e
  let high := scores.foldl (fun acc fs =>
    if (80 : ℚ) ≤ fs.2 * 100 then
      match highStrengthMsg fs.1 with
      | some m => acc ++ [m]
      | none => acc
    else acc) []
  if high.isEmpty then
    scores.foldl (fun acc fs =>
      if (70 : ℚ) ≤ fs.2 * 100 then
        match moderateStrengthMsg fs.1 with
        | some m => acc ++ [m]
        | none => acc
      else acc) []
  else high

def identify_areas_of_concern (t a ap u e : ℚ) : List String :=
  (scoresList t a ap u e).foldl (fun acc fs =>
    if fs.2 * 100 ≤ (40 : ℚ) then
      match concernMsg fs.1 with
      | some m => acc ++ [m]
      | none => acc
    else acc) []

structure InterviewRecs where
  estimated_audience_engagement : String
  preparation_notes : List String
  focus_topics : List String
deriving DecidableEq

def generate_interview_recommendations (g : GuestProfile) (h : HostAnalysis)
    (overall_score : ℤ) : InterviewRecs :=
  let guest_topics := g.potential_interview_topics
  let guest_expertise := g.expertise_areas
  let channel_topics := h.channel_dna.primary_topics
  let estimated :=
    if 80 ≤ overall_score then "HIGH"
    else if 60 ≤ overall_score then "MEDIUM"
    else "LOW"
  let notes :=
    if 70 ≤ overall_score then
      let base := ["Research guest's recent work and publications"]
      if !guest_topics.isEmpty && !channel_topics.isEmpty then
        (guest_topics.take 2).foldl (fun acc topic =>
          if channel_topics.any (fun ct =>
            pyIn (pyLower topic) (pyLower ct) || pyIn (pyLower ct) (pyLower topic)) then
            acc ++ ["Focus on " ++ topic ++ " which aligns with channel interests"]
          else acc) base
      else base
    else
      let base := ["Carefully prepare to bridge guest expertise with channel topics"]
      if "Limited alignment with channel topics" ∈
          identify_areas_of_concern (calculate_topic_alignment g h) 0.5 0.5 0.5 0.5 then
        base ++ ["Consider narrowing interview focus to most relevant topics"]
      else base
  let prevHead := (g.previous_podcasts.getD ["Unknown"]).headD "Unknown"
  let notes2 :=
    if prevHead = "Unable to determine" then
      notes ++ ["Guest may have limited podcast experience - prepare accordingly"]
    else notes
  { estimated_audience_engagement := estimated
    preparation_notes := notes2
    focus_topics := if !guest_topics.isEmpty then guest_topics.take 3 else guest_expertise.take 3 }

def determine_confidence_level (g : GuestProfile) (h : HostAnalysis) : String :=
  let dq := g.extraction_metadata.data_quality_score
  let cs := g.extraction_metadata.confidence_score
  let va := h.videos_analyzed
  if 70 ≤ dq ∧ 70 ≤ cs ∧ 20 ≤ va then "HIGH"
  else if 50 ≤ dq ∧ 50 ≤ cs ∧ 10 ≤ va then "MEDIUM"
  else "LOW"

/-! ### Overall score -/

def weightedSum (w : Weights) (t a ap u e : ℚ) : ℚ :=
  t * w.topic_alignment + a * w.authority_score + ap * w.audience_appeal +
    u * w.uniqueness_factor + e * w.engagement_potential

/-- `round((Σ subscore·weight) * 100)`. -/
def overallFromSubscores (w : Weights) (t a ap u e : ℚ) : ℤ :=
  pyRound (weightedSum w t a ap u e * 100)

structure BreakdownEntry where
  score : ℤ
  weight : ℚ
deriving DecidableEq

structure RelevanceResult where
  guest_name : String
  overall_relevance_score : ℤ
  recommendation : String
  confidence_level : String
  topic_alignment_breakdown : BreakdownEntry
  authority_score_breakdown : BreakdownEntry
  audience_appeal_breakdown : BreakdownEntry
  uniqueness_factor_breakdown : BreakdownEntry
  engagement_potential_breakdown : BreakdownEntry
  key_strengths : List String
  areas_of_concern : List String
  interview_recommendations : InterviewRecs
  analysis_timestamp : String
deriving DecidableEq

/-- `calculate_overall_relevance_score`.  The `now` argument models the
`datetime.now().isoformat()` reading taken when building the result. -/
def calculate_overall_relevance_score (g : GuestProfile) (h : HostAnalysis)
    (now : String) : RelevanceResult :=
  let w := defaultWeights
  let t := calculate_topic_alignment g h
  let a := calculate_authority_score g h
  let ap := calculate_audience_appeal g h
  let u := calculate_uniqueness_factor g h
  let e := calculate_engagement_potential g h
  let overall := overallFromSubscores w t a ap u e
  { guest_name := g.name.getD "Unknown Guest"
    overall_relevance_score := overall
    recommendation := determine_recommendation overall
    confidence_level := determine_confidence_level g h
    topic_alignment_breakdown := ⟨pyRound (t * 100), w.topic_alignment⟩
    authority_score_breakdown := ⟨pyRound (a * 100), w.authority_score⟩
    audience_appeal_breakdown := ⟨pyRound (ap * 100), w.audience_appeal⟩
    uniqueness_factor_breakdown := ⟨pyRound (u * 100), w.uniqueness_factor⟩
    engagement_potential_breakdown := ⟨pyRound (e * 100), w.engagement_potential⟩
    key_strengths := identify_key_strengths t a ap u e
    areas_of_concern := identify_areas_of_concern t a ap u e
    interview_recommendations := generate_interview_recommendations g h overall
    analysis_timestamp := now }

/-! ### Host-analysis cache (`podcast_guest_tracker.py`, lines 80-97) -/

/-- The host-analysis value as stored in the cache and handed to the scorer;
`hasError` models the presence of an `'error'` key in the returned dict. -/
structure HostAnalysisOutcome where
  analysis : HostAnalysis
  hasError : Bool
deriving DecidableEq

structure CacheEntry where
  data : HostAnalysisOutcome
  timestamp : ℚ
deriving DecidableEq

def cacheTTL : ℚ := 86400

/-- One execution of the cache-or-recompute block of
`analyze_podcast_guest_complete` for a single channel key.
`entry` is the cache slot for the key, `fresh` is what
`analyze_host_channel` would return if invoked.  Result: the analysis used,
whether the analyzer was invoked, and the new cache slot. -/
def hostCacheStep (entry : Option CacheEntry) (use_cache : Bool) (now : ℚ)
    (fresh : HostAnalysisOutcome) : HostAnalysisOutcome × Bool × Option CacheEntry :=
  let cached : Option HostAnalysisOutcome :=
    match entry with
    | some e => if use_cache = true ∧ now - e.timestamp < cacheTTL then some e.data else none
    | none => none
  match cached with
  | some d => (d, false, entry)
  | none =>
    let newEntry :=
      if use_cache = true ∧ fresh.hasError = false then some ⟨fresh, now⟩ else entry
    (fresh, true, newEntry)

/-! ### Batch orchestration (`batch_analyze_guests`) -/

structure GuestInfo where
  name : String
  url : String
deriving DecidableEq

/-- Projection of a successful per-guest analysis onto the fields the batch
logic reads: `analysis_metadata.guest_name` and the
`recommendation_summary` score/recommendation. -/
structure SingleResult where
  guest_name : String
  overall_score : ℤ
  recommendation : String
deriving DecidableEq

structure RankEntry where
  rank : ℕ
  name : String
  score : ℤ
  recommendation : String
deriving DecidableEq

structure BatchResult where
  total_guests : ℕ
  successful_analyses : ℕ
  failed_count : ℕ
  guest_analyses : List SingleResult
  failed_analyses : List (GuestInfo × String)
  ranking : List RankEntry
deriving DecidableEq

/-- The per-guest loop: an `Except.error` models both an exception from
`analyze_podcast_guest_complete` (caught by the `except` branch) and a
returned record carrying an `'error'` key; either way the guest is appended
to `failed_analyses` and the loop continues with the next guest. -/
def batchLoop (analyze : GuestInfo → Except String SingleResult)
    (guests : List GuestInfo) : List SingleResult × List (GuestInfo × String) :=
  guests.foldl (fun acc gi =>
    match analyze gi with
    | .ok r => (acc.1 ++ [r], acc.2)
    | .error e => (acc.1, acc.2 ++ [(gi, e)])) ([], [])

/-- Descending-score order used by `results.sort(key=..., reverse=True)`;
with `List.insertionSort` this reproduces Python's stable descending sort. -/
def scoreGE (a b : SingleResult) : Prop := b.overall_score ≤ a.overall_score

instance : DecidableRel scoreGE := fun a b => Int.decLe _ _

instance : IsTotal SingleResult scoreGE :=
  ⟨fun a b => (le_total b.overall_score a.overall_score).imp id id⟩

instance : IsTrans SingleResult scoreGE :=
  ⟨fun _ _ _ hab hbc => le_trans hbc hab⟩

/-- `for i, result in enumerate(results)` building the ranking entries. -/
def buildRanking : ℕ → List SingleResult → List RankEntry
  | _, [] => []
  | i, r :: rs =>
    ⟨i + 1, r.guest_name, r.overall_score, r.recommendation⟩ :: buildRanking (i + 1) rs

def batch_analyze_guests (analyze : GuestInfo → Except String SingleResult)
    (guests : List GuestInfo) : BatchResult :=
  let rf := batchLoop analyze guests
  let sorted := List.insertionSort scoreGE rf.1
  { total_guests := guests.length
    successful_analyses := rf.1.length
    failed_count := rf.2.length
    guest_analyses := sorted
    failed_analyses := rf.2
    ranking := buildRanking 0 sorted }

/-! ### Reference formulations used to state claims -/

/-- The guest's (possibly defaulted) lowercased name occurs in the lowercased
title of `v`. -/
def titleMatchesName (g : GuestProfile) (v : Video) : Bool :=
  pyIn (pyLower (g.name.getD "")) (pyLower v.title)

/-- Some lowercased expertise area of the guest occurs in the lowercased
title of `v`. -/
def titleMatchesExpertise (g : GuestProfile) (v : Video) : Bool :=
  (g.expertise_areas.map pyLower).any (fun e => pyIn e (pyLower v.title))

/-- Closed-form restatement of the uniqueness factor: a flat repeat-guest
penalty when any title matches the name, plus a topic-saturation penalty
counted over the titles scanned strictly before the first name match (all
titles when no match occurs), plus the unique-industry bonus, clamped. -/
def uniquenessSpec (g : GuestProfile) (h : HostAnalysis) : ℚ :=
  let scanned := h.raw_video_data.takeWhile (fun v => !titleMatchesName g v)
  let appeared := h.raw_video_data.any (fun v => titleMatchesName g v)
  let cnt := (scanned.filter (fun v => titleMatchesExpertise g v)).length
  let s := (0.7 : ℚ) - (if appeared then 0.3 else 0) -
    (if 0 < cnt then min 0.3 ((cnt : ℚ) * 0.05) else 0) +
    (if industryBonusApplies g h then 0.1 else 0)
  max 0.1 (min 1 s)

/-- Equality of two relevance results on every field except the embedded
wall-clock `analysis_timestamp`. -/
def resultsAgreeExceptTimestamp (r1 r2 : RelevanceResult) : Prop :=
  r1.guest_name = r2.guest_name ∧
  r1.overall_relevance_score = r2.overall_relevance_score ∧
  r1.recommendation = r2.recommendation ∧
  r1.confidence_level = r2.confidence_level ∧
  r1.topic_alignment_breakdown = r2.topic_alignment_breakdown ∧
  r1.authority_score_breakdown = r2.authority_score_breakdown ∧
  r1.audience_appeal_breakdown = r2.audience_appeal_breakdown ∧
  r1.uniqueness_factor_breakdown = r2.uniqueness_factor_breakdown ∧
  r1.engagement_potential_breakdown = r2.engagement_potential_breakdown ∧
  r1.key_strengths = r2.key_strengths ∧
  r1.areas_of_concern = r2.areas_of_concern ∧
  r1.interview_recommendations = r2.interview_recommendations

/-! ### Concrete records used in counterexamples and witnesses -/

/-- The guest of the spec's end-to-end scenario. -/
def guestAIStartups : GuestProfile :=
  { name := some "Test Guest"
    expertise_areas := ["artificial intelligence", "startups"]
    authority_indicators := ["Founder", "CEO"]
    social_following := [("twitter", "2M")] }

/-- The host of the spec's end-to-end scenario. -/
def hostTechChannel : HostAnalysis :=
  { channel_dna := { primary_topics := ["technology", "entrepreneurship"] } }

/-- A guest whose expertise keyword appears in a title scanned before the
title containing the guest's name. -/
def guestAlice : GuestProfile :=
  { name := some "Alice", expertise_areas := ["ai"] }

def hostAliceVideos : HostAnalysis :=
  { raw_video_data := [⟨"AI revolution"⟩, ⟨"Interview with Alice"⟩] }

/-- A nameless guest from an industry none of the host's topics mention. -/
def guestNoName : GuestProfile := { industry := "finance" }

def hostOneVideo : HostAnalysis :=
  { channel_dna := { primary_topics := ["technology"] }
    raw_video_data := [⟨"Some Title"⟩] }

/-- A cached, error-free analysis stored at time 0. -/
def expiredOkEntry : Option CacheEntry := some ⟨⟨{}, false⟩, 0⟩

/-- An analyzer run that returned an error record. -/
def erroredFresh : HostAnalysisOutcome := ⟨{}, true⟩

/-- The per-guest outcome kept in `results` (successful analyses). -/
def successOf (analyze : GuestInfo → Except String SingleResult) (gi : GuestInfo) :
    Option SingleResult := (analyze gi).toOption

/-- The per-guest outcome kept in `failed_analyses`. -/
def failureOf (analyze : GuestInfo → Except String SingleResult) (gi : GuestInfo) :
    Option (GuestInfo × String) :=
  match analyze gi with
  | .error e => some (gi, e)
  | .ok _ => none

/-- Guests used in the ranking demo: scores 55, 90, 70 plus one failure. -/
def demoGuests : List GuestInfo :=
  [⟨"Carol", "u1"⟩, ⟨"Dan", "u2"⟩, ⟨"Erin", "u3"⟩, ⟨"Mallory", "u4"⟩]

def demoAnalyze : GuestInfo → Except String SingleResult := fun gi =>
  if gi.name = "Carol" then .ok ⟨"Carol", 55, "CONSIDER"⟩
  else if gi.name = "Dan" then .ok ⟨"Dan", 90, "HIGHLY_RECOMMENDED"⟩
  else if gi.name = "Erin" then .ok ⟨"Erin", 70, "RECOMMENDED"⟩
  else .error "profile extraction failed"

/-! ### Helper lemmas -/

lemma pyRound_nonneg {q : ℚ} (hq : 0 ≤ q) : 0 ≤ pyRound q := by
  have hf : (0 : ℤ) ≤ ⌊q⌋ := Int.le_floor.mpr (by exact_mod_cast hq)
  simp only [pyRound]
  split_ifs <;> omega

lemma pyRound_le {q : ℚ} {n : ℤ} (hq : q ≤ (n : ℚ)) : pyRound q ≤ n := by
  have hfle : ⌊q⌋ ≤ n := Int.floor_le_floor hq |>.trans_eq (Int.floor_intCast n)
  simp only [pyRound]
  split_ifs with h1 h2 h3
  · exact hfle
  · have hlt : (⌊q⌋ : ℚ) < q := by
      have := Int.sub_one_lt_floor q
      nlinarith [Int.floor_le q]
    have : (⌊q⌋ : ℚ) < (n : ℚ) := hlt.trans_le hq
    have : ⌊q⌋ < n := by exact_mod_cast this
    omega
  · exact hfle
  · have hlt : (⌊q⌋ : ℚ) < q := by nlinarith [Int.floor_le q]
    have : (⌊q⌋ : ℚ) < (n : ℚ) := hlt.trans_le hq
    have : ⌊q⌋ < n := by exact_mod_cast this
    omega

lemma substrList_nil_left : ∀ hay : List Char, substrList [] hay = true
  | [] => rfl
  | _ :: _ => rfl

lemma pyIn_empty (s : String) : pyIn "" s = true := substrList_nil_left s.data

/-! ### Claim theorems -/

/-- C4: for sub-scores in [0,1], the overall score is
`round(100 * (0.35*t + 0.25*a + 0.20*ap + 0.10*u + 0.10*e))`, the five
configured weights sum to exactly 1, and the result is an integer in
[0,100]. -/
theorem C4_weighted_aggregation :
    (defaultWeights.topic_alignment + defaultWeights.authority_score +
      defaultWeights.audience_appeal + defaultWeights.uniqueness_factor +
      defaultWeights.engagement_potential = 1) ∧
    ∀ t a ap u e : ℚ, 0 ≤ t → t ≤ 1 → 0 ≤ a → a ≤ 1 → 0 ≤ ap → ap ≤ 1 →
      0 ≤ u → u ≤ 1 → 0 ≤ e → e ≤ 1 →
      overallFromSubscores defaultWeights t a ap u e =
        pyRound (100 * (0.35 * t + 0.25 * a + 0.20 * ap + 0.10 * u + 0.10 * e)) ∧
      0 ≤ overallFromSubscores defaultWeights t a ap u e ∧
      overallFromSubscores defaultWeights t a ap u e ≤ 100 := by
  constructor
  · norm_num [defaultWeights]
  intro t a ap u e ht0 ht1 ha0 ha1 hap0 hap1 hu0 hu1 he0 he1
  have hsum0 : 0 ≤ weightedSum defaultWeights t a ap u e * 100 := by
    simp only [weightedSum, defaultWeights]
    nlinarith
  have hsum1 : weightedSum defaultWeights t a ap u e * 100 ≤ (100 : ℚ) := by
    simp only [weightedSum, defaultWeights]
    nlinarith
  refine ⟨?_, ?_, ?_⟩
  · simp only [overallFromSubscores]
    congr 1
    simp only [weightedSum, defaultWeights]
    ring
  · exact pyRound_nonneg hsum0
  · exact pyRound_le (by exact_mod_cast hsum1)

theorem C4_witness :
    overallFromSubscores defaultWeights 0.5 0.5 0.5 0.5 0.5 =
      pyRound (100 * (0.35 * 0.5 + 0.25 * 0.5 + 0.20 * 0.5 + 0.10 * 0.5 + 0.10 * 0.5)) ∧
    0 ≤ overallFromSubscores defaultWeights 0.5 0.5 0.5 0.5 0.5 ∧
    overallFromSubscores defaultWeights 0.5 0.5 0.5 0.5 0.5 ≤ 100 :=
  C4_weighted_aggregation.2 0.5 0.5 0.5 0.5 0.5 (by norm_num) (by norm_num)
    (by norm_num) (by norm_num) (by norm_num) (by norm_num) (by norm_num)
    (by norm_num) (by norm_num) (by norm_num)

/-- C5: `determine_recommendation` maps each score band to its documented
tier and is monotone under the tier order
NOT_RECOMMENDED < LOW_PRIORITY < CONSIDER < RECOMMENDED <
HIGHLY_RECOMMENDED. -/
theorem C5_recommendation_tiers :
    (∀ s : ℤ, 85 ≤ s → determine_recommendation s = "HIGHLY_RECOMMENDED") ∧
    (∀ s : ℤ, 70 ≤ s → s ≤ 84 → determine_recommendation s = "RECOMMENDED") ∧
    (∀ s : ℤ, 55 ≤ s → s ≤ 69 → determine_recommendation s = "CONSIDER") ∧
    (∀ s : ℤ, 40 ≤ s → s ≤ 54 → determine_recommendation s = "LOW_PRIORITY") ∧
    (∀ s : ℤ, s < 40 → determine_recommendation s = "NOT_RECOMMENDED") ∧
    (∀ s1 s2 : ℤ, s1 ≤ s2 →
      tierRank (determine_recommendation s1) ≤ tierRank (determine_recommendation s2)) := by
  refine ⟨?_, ?_, ?_, ?_, ?_, ?_⟩
  · intro s hs
    simp only [determine_recommendation]
    split_ifs <;> first | rfl | omega
  · intro s hs1 hs2
    simp only [determine_recommendation]
    split_ifs <;> first | rfl | omega
  · intro s hs1 hs2
    simp only [determine_recommendation]
    split_ifs <;> first | rfl | omega
  · intro s hs1 hs2
    simp only [determine_recommendation]
    split_ifs <;> first | rfl | omega
  · intro s hs
    simp only [determine_recommendation]
    split_ifs <;> first | rfl | omega
  · intro s1 s2 hle
    simp only [determine_recommendation]
    split_ifs <;> first | decide | omega

theorem C5_recommendation_tiers_witness :
    tierRank (determine_recommendation 40) ≤ tierRank (determine_recommendation 90) :=
  C5_recommendation_tiers.2.2.2.2.2 40 90 (by decide)

/-- C9: an empty guest expertise list or an empty host primary-topics list
makes `calculate_topic_alignment` return exactly the neutral 0.5 (which is
neither 0 nor 1); on fully-absent records every sub-score degrades to its
documented neutral base value instead of failing. -/
theorem C9_missing_data_neutral :
    (∀ (g : GuestProfile) (h : HostAnalysis),
      g.expertise_areas = [] ∨ h.channel_dna.primary_topics = [] →
      calculate_topic_alignment g h = 0.5) ∧
    ((0.5 : ℚ) ≠ 0 ∧ (0.5 : ℚ) ≠ 1) ∧
    calculate_topic_alignment {} {} = 0.5 ∧
    calculate_authority_score {} {} = 0.5 ∧
    calculate_audience_appeal {} {} = 0.6 ∧
    calculate_uniqueness_factor {} {} = 0.7 ∧
    calculate_engagement_potential {} {} = 0.5 := by
  refine ⟨?_, ⟨by norm_num, by norm_num⟩, ?_, ?_, ?_, ?_, ?_⟩
  · intro g h hemp
    rcases hemp with hemp | hemp <;> simp [calculate_topic_alignment, hemp]
  · simp [calculate_topic_alignment]
  · norm_num [calculate_authority_score, min_def]
  · norm_num [calculate_audience_appeal, min_def]
  · have hscan : uniquenessScan (pyLower (({} : GuestProfile).name.getD ""))
        (({} : GuestProfile).expertise_areas.map pyLower)
        ({} : HostAnalysis).raw_video_data = (false, 0) := by decide
    have hbonus : industryBonusApplies {} {} = false := by decide
    simp only [calculate_uniqueness_factor, hscan, hbonus]
    norm_num [min_def, max_def]
  · norm_num [calculate_engagement_potential, min_def]

theorem C9_missing_data_neutral_witness : calculate_topic_alignment {} {} = 0.5 :=
  C9_missing_data_neutral.1 {} {} (Or.inl rfl)

/-- C10: a guest with no name (or an empty-string name) always triggers the
repeat-guest penalty on the first sampled title (the empty string is a
substring of everything), topic penalties are skipped, and the result is
0.4, or 0.5 with the unique-industry bonus. -/
theorem C10_empty_name_repeat_penalty : ∀ (g : GuestProfile) (h : HostAnalysis),
    g.name = none ∨ g.name = some "" → h.raw_video_data ≠ [] →
    calculate_uniqueness_factor g h =
      (if industryBonusApplies g h then 1/2 else 2/5) := by
  intro g h hname hvid
  have hempty : pyLower (g.name.getD "") = "" := by
    rcases hname with h1 | h1 <;> rw [h1] <;> rfl
  obtain ⟨v, vs, hv⟩ : ∃ v vs, h.raw_video_data = v :: vs := by
    cases hveq : h.raw_video_data with
    | nil => exact absurd hveq hvid
    | cons v vs => exact ⟨v, vs, rfl⟩
  have hscan : uniquenessScan (pyLower (g.name.getD "")) (g.expertise_areas.map pyLower)
      h.raw_video_data = (true, 0) := by
    rw [hv, hempty, uniquenessScan]
    simp [pyIn_empty]
  simp only [calculate_uniqueness_factor, hscan]
  split_ifs <;> norm_num [min_def, max_def]

theorem C10_empty_name_repeat_penalty_witness :
    calculate_uniqueness_factor guestNoName hostOneVideo =
      (if industryBonusApplies guestNoName hostOneVideo then 1/2 else 2/5) :=
  C10_empty_name_repeat_penalty guestNoName hostOneVideo (Or.inl rfl) (by decide)

/-- The scanning loop equals: name seen anywhere, together with the count of
expertise-matching titles strictly before the first name match. -/
lemma uniquenessScan_eq (g : GuestProfile) : ∀ vs : List Video,
    uniquenessScan (pyLower (g.name.getD "")) (g.expertise_areas.map pyLower) vs =
      (vs.any (fun v => titleMatchesName g v),
       ((vs.takeWhile (fun v => !titleMatchesName g v)).filter
          (fun v => titleMatchesExpertise g v)).length) := by
  intro vs
  induction vs with
  | nil => rfl
  | cons v vs ih =>
    rw [uniquenessScan]
    by_cases hname : titleMatchesName g v
    · have hname2 : pyIn (pyLower (g.name.getD "")) (pyLower v.title) = true := hname
      simp [hname2, hname]
    · have hname2 : pyIn (pyLower (g.name.getD "")) (pyLower v.title) = false := by
        simpa [titleMatchesName] using hname
      have hname3 : titleMatchesName g v = false := by
        simpa [titleMatchesName] using hname
      simp only [hname2, Bool.false_eq_true, if_false, ih, List.any_cons, hname3,
        Bool.false_or, List.takeWhile_cons, Bool.not_false, if_true, List.filter_cons]
      by_cases hexp : titleMatchesExpertise g v
      · have hexp2 : (g.expertise_areas.map pyLower).any
            (fun e => pyIn e (pyLower v.title)) = true := hexp
        simp [hexp, hexp2, Nat.add_comm]
      · have hexp2 : (g.expertise_areas.map pyLower).any
            (fun e => pyIn e (pyLower v.title)) = false := by
          simpa [titleMatchesExpertise] using hexp
        simp [hexp, hexp2]

/-- C3 (amended): the uniqueness factor starts at 0.7, applies the flat −0.3
penalty when the name matches some title and stops scanning there, but topic
penalties accumulated from the titles scanned before that match still apply
(0.05 each, capped at 0.3); +0.1 for a unique industry; result clamped to
[0.1, 1]. -/
theorem C3_uniqueness_amended : ∀ (g : GuestProfile) (h : HostAnalysis),
    calculate_uniqueness_factor g h = uniquenessSpec g h ∧
    0.1 ≤ calculate_uniqueness_factor g h ∧ calculate_uniqueness_factor g h ≤ 1 := by
  intro g h
  refine ⟨?_, ?_, ?_⟩
  · simp only [calculate_uniqueness_factor, uniquenessSpec, uniquenessScan_eq]
    split_ifs <;> ring_nf
  · show (0.1 : ℚ) ≤ max 0.1 _
    exact le_max_left _ _
  · show max (0.1 : ℚ) (min 1 _) ≤ 1
    exact max_le (by norm_num) (min_le_left _ _)

/-- C3 (counterexample to the claim as stated): with guest "Alice" whose
expertise keyword "ai" occurs in the first title and whose name occurs in the
second, both the repeat-guest penalty and a topic penalty apply, yielding
0.35 instead of the 0.4 the claim's description forces. -/
theorem C3_uniqueness_counterexample :
    calculate_uniqueness_factor guestAlice hostAliceVideos = 7/20 ∧
    (7/20 : ℚ) ≠ 2/5 ∧
    hostAliceVideos.raw_video_data.any (fun v => titleMatchesName guestAlice v) = true ∧
    industryBonusApplies guestAlice hostAliceVideos = false := by
  refine ⟨?_, by norm_num, by decide, by decide⟩
  have hscan : uniquenessScan (pyLower (guestAlice.name.getD ""))
      (guestAlice.expertise_areas.map pyLower) hostAliceVideos.raw_video_data =
      (true, 1) := by decide
  simp only [calculate_uniqueness_factor, hscan,
    show industryBonusApplies guestAlice hostAliceVideos = false from by decide]
  norm_num [min_def, max_def]

/-- C6 (amended): a cache entry is served only while `now - created_at < TTL`
and then without invoking the analyzer; an expired or absent entry always
invokes the analyzer, and the entry is overwritten with a reset timestamp
exactly when the fresh analysis is error-free (an error result leaves the
slot unchanged); whenever the analyzer is not invoked the serving entry was
fresh. -/
theorem C6_cache_ttl_amended : ∀ (e : CacheEntry) (now : ℚ) (fresh : HostAnalysisOutcome),
    (now - e.timestamp < cacheTTL →
      hostCacheStep (some e) true now fresh = (e.data, false, some e)) ∧
    (cacheTTL ≤ now - e.timestamp →
      hostCacheStep (some e) true now fresh =
        (fresh, true, if fresh.hasError then some e else some ⟨fresh, now⟩)) ∧
    (hostCacheStep none true now fresh =
      (fresh, true, if fresh.hasError then none else some ⟨fresh, now⟩)) ∧
    (∀ o : Option CacheEntry, (hostCacheStep o true now fresh).2.1 = false →
      ∃ e2, o = some e2 ∧ now - e2.timestamp < cacheTTL ∧
        (hostCacheStep o true now fresh).1 = e2.data) := by
  intro e now fresh
  refine ⟨?_, ?_, ?_, ?_⟩
  · intro hfreshTTL
    simp [hostCacheStep, hfreshTTL]
  · intro hstale
    have hnot : ¬ (now - e.timestamp < cacheTTL) := not_lt.mpr hstale
    cases herr : fresh.hasError <;> simp [hostCacheStep, hnot, herr]
  · cases herr : fresh.hasError <;> simp [hostCacheStep, herr]
  · intro o hinv
    cases o with
    | none => simp [hostCacheStep] at hinv
    | some e2 =>
      by_cases hf : now - e2.timestamp < cacheTTL
      · exact ⟨e2, rfl, hf, by simp [hostCacheStep, hf]⟩
      · simp [hostCacheStep, hf] at hinv

theorem C6_cache_ttl_amended_witness :
    hostCacheStep (some ⟨⟨{}, false⟩, 0⟩) true 10 ⟨{}, false⟩ =
      ((⟨{}, false⟩ : HostAnalysisOutcome), false, some ⟨⟨{}, false⟩, 0⟩) :=
  (C6_cache_ttl_amended ⟨⟨{}, false⟩, 0⟩ 10 ⟨{}, false⟩).1 (by norm_num [cacheTTL])

/-- C6 (counterexample to the claim as stated): with an expired entry and an
analyzer run returning an error record, the analyzer is re-invoked but the
entry is left unchanged — it is not overwritten with a reset timestamp. -/
theorem C6_cache_counterexample :
    (hostCacheStep expiredOkEntry true 86400 erroredFresh).2.1 = true ∧
    (hostCacheStep expiredOkEntry true 86400 erroredFresh).2.2 = expiredOkEntry ∧
    expiredOkEntry ≠ some ⟨erroredFresh, 86400⟩ := by
  have hnot : ¬ ((86400 : ℚ) < cacheTTL) := by norm_num [cacheTTL]
  refine ⟨?_, ?_, ?_⟩
  · simp [hostCacheStep, expiredOkEntry, erroredFresh, hnot]
  · simp [hostCacheStep, expiredOkEntry, erroredFresh, hnot]
  · simp [expiredOkEntry, erroredFresh]

/-! ### Batch lemmas -/

lemma batchLoop_foldl (analyze : GuestInfo → Except String SingleResult) :
    ∀ (guests : List GuestInfo) (rs : List SingleResult) (fs : List (GuestInfo × String)),
    guests.foldl (fun acc gi =>
      match analyze gi with
      | .ok r => (acc.1 ++ [r], acc.2)
      | .error e => (acc.1, acc.2 ++ [(gi, e)])) (rs, fs) =
    (rs ++ guests.filterMap (successOf analyze),
     fs ++ guests.filterMap (failureOf analyze)) := by
  intro guests
  induction guests with
  | nil => intro rs fs; simp
  | cons gi rest ih =>
    intro rs fs
    cases hgi : analyze gi with
    | ok r =>
      simp only [List.foldl_cons, hgi, List.filterMap_cons, successOf, failureOf,
        Except.toOption, ih]
      simp [hgi, successOf, failureOf, Except.toOption]
    | error e =>
      simp only [List.foldl_cons, hgi, List.filterMap_cons, successOf, failureOf,
        Except.toOption, ih]
      simp [hgi, successOf, failureOf, Except.toOption]

lemma batchLoop_eq (analyze : GuestInfo → Except String SingleResult)
    (guests : List GuestInfo) :
    batchLoop analyze guests =
      (guests.filterMap (successOf analyze), guests.filterMap (failureOf analyze)) := by
  simpa [batchLoop] using batchLoop_foldl analyze guests [] []

lemma success_failure_length (analyze : GuestInfo → Except String SingleResult) :
    ∀ guests : List GuestInfo,
    (guests.filterMap (successOf analyze)).length +
      (guests.filterMap (failureOf analyze)).length = guests.length := by
  intro guests
  induction guests with
  | nil => rfl
  | cons gi rest ih =>
    cases hgi : analyze gi <;>
      simp [List.filterMap_cons, successOf, failureOf, hgi, Except.toOption] <;> omega

lemma buildRanking_length : ∀ (n : ℕ) (l : List SingleResult),
    (buildRanking n l).length = l.length
  | _, [] => rfl
  | n, _ :: l => by simp [buildRanking, buildRanking_length (n + 1) l]

lemma buildRanking_map_rank : ∀ (n : ℕ) (l : List SingleResult),
    (buildRanking n l).map RankEntry.rank = List.range' (n + 1) l.length
  | _, [] => rfl
  | n, _ :: l => by
    simp [buildRanking, List.range', buildRanking_map_rank (n + 1) l]

lemma buildRanking_map_triple : ∀ (n : ℕ) (l : List SingleResult),
    (buildRanking n l).map (fun rk => (rk.name, rk.score, rk.recommendation)) =
      l.map (fun r => (r.guest_name, r.overall_score, r.recommendation))
  | _, [] => rfl
  | n, _ :: l => by simp [buildRanking, buildRanking_map_triple (n + 1) l]

lemma buildRanking_map_score : ∀ (n : ℕ) (l : List SingleResult),
    (buildRanking n l).map RankEntry.score = l.map SingleResult.overall_score
  | _, [] => rfl
  | n, _ :: l => by simp [buildRanking, buildRanking_map_score (n + 1) l]

lemma orderedInsert_filter_score (x : SingleResult) (s : ℤ) : ∀ l : List SingleResult,
    (l.orderedInsert scoreGE x).filter (fun r => decide (r.overall_score = s)) =
      if x.overall_score = s then
        x :: l.filter (fun r => decide (r.overall_score = s))
      else l.filter (fun r => decide (r.overall_score = s))
  | [] => by
    simp only [List.orderedInsert, List.filter]
    split_ifs with h <;> simp [h]
  | y :: l => by
    simp only [List.orderedInsert]
    by_cases hxy : scoreGE x y
    · rw [if_pos hxy]
      simp only [List.filter_cons]
      by_cases hx : x.overall_score = s <;> simp [hx]
    · rw [if_neg hxy]
      have hyx : x.overall_score < y.overall_score := by
        simpa [scoreGE, not_le] using hxy
      simp only [List.filter_cons, orderedInsert_filter_score x s l]
      by_cases hx : x.overall_score = s
      · have hy : ¬ (y.overall_score = s) := by omega
        simp [hx, hy]
      · by_cases hy : y.overall_score = s <;> simp [hx, hy]

lemma insertionSort_filter_score (s : ℤ) : ∀ l : List SingleResult,
    (List.insertionSort scoreGE l).filter (fun r => decide (r.overall_score = s)) =
      l.filter (fun r => decide (r.overall_score = s))
  | [] => rfl
  | x :: l => by
    simp only [List.insertionSort, orderedInsert_filter_score x s,
      insertionSort_filter_score s l, List.filter_cons]
    split_ifs <;> simp_all

/-! ### Batch claim theorems -/

/-- C7: batch analysis records each failing guest as a `(guest_info, error)`
entry without aborting the remaining guests, the counters always account for
every guest, and even when every guest fails the batch returns a result with
an empty ranking and a fully populated failure list. -/
theorem C7_batch_failure_isolation :
    ∀ (analyze : GuestInfo → Except String SingleResult) (guests : List GuestInfo),
    (batch_analyze_guests analyze guests).total_guests = guests.length ∧
    (batch_analyze_guests analyze guests).successful_analyses +
      (batch_analyze_guests analyze guests).failed_count = guests.length ∧
    (batch_analyze_guests analyze guests).failed_analyses =
      guests.filterMap (failureOf analyze) ∧
    (∀ gi e, gi ∈ guests → analyze gi = .error e →
      (gi, e) ∈ (batch_analyze_guests analyze guests).failed_analyses) ∧
    ((∀ gi, gi ∈ guests → ∃ e, analyze gi = .error e) →
      (batch_analyze_guests analyze guests).ranking = [] ∧
      (batch_analyze_guests analyze guests).failed_analyses.length = guests.length) := by
  intro analyze guests
  have hloop := batchLoop_eq analyze guests
  refine ⟨rfl, ?_, ?_, ?_, ?_⟩
  · simp only [batch_analyze_guests, hloop]
    exact success_failure_length analyze guests
  · simp only [batch_analyze_guests, hloop]
  · intro gi e hmem herr
    simp only [batch_analyze_guests, hloop]
    exact List.mem_filterMap.mpr ⟨gi, hmem, by simp [failureOf, herr]⟩
  · intro hall
    have hsucc : guests.filterMap (successOf analyze) = [] := by
      rw [List.filterMap_eq_nil]
      intro gi hmem
      obtain ⟨e, he⟩ := hall gi hmem
      simp [successOf, he, Except.toOption]
    constructor
    · simp [batch_analyze_guests, hloop, hsucc, buildRanking]
    · have hlen := success_failure_length analyze guests
      rw [hsucc] at hlen
      simp only [batch_analyze_guests, hloop]
      simpa using hlen

theorem C7_batch_failure_isolation_witness :
    (batch_analyze_guests (fun gi => .error ("failed " ++ gi.name))
      [⟨"A", "urlA"⟩]).ranking = [] ∧
    (batch_analyze_guests (fun gi => .error ("failed " ++ gi.name))
      [⟨"A", "urlA"⟩]).failed_analyses.length = 1 :=
  (C7_batch_failure_isolation (fun gi => .error ("failed " ++ gi.name))
    [⟨"A", "urlA"⟩]).2.2.2.2 (fun gi _ => ⟨"failed " ++ gi.name, rfl⟩)

/-- C8: the ranking is exactly the successful analyses (a permutation of
them), sorted descending by score, with ranks 1..N; equal scores keep their
processing order (stability, stated per score level); every ranking entry
comes from a successful analysis, so failed guests never appear there. -/
theorem C8_batch_ranking :
    ∀ (analyze : GuestInfo → Except String SingleResult) (guests : List GuestInfo),
    ((batch_analyze_guests analyze guests).ranking.map
        (fun rk => (rk.name, rk.score, rk.recommendation))).Perm
      ((guests.filterMap (successOf analyze)).map
        (fun r => (r.guest_name, r.overall_score, r.recommendation))) ∧
    List.Sorted (fun x y : ℤ => y ≤ x)
      ((batch_analyze_guests analyze guests).ranking.map RankEntry.score) ∧
    (batch_analyze_guests analyze guests).ranking.map RankEntry.rank =
      List.range' 1 (guests.filterMap (successOf analyze)).length ∧
    (∀ s : ℤ, (batch_analyze_guests analyze guests).guest_analyses.filter
        (fun r => decide (r.overall_score = s)) =
      (guests.filterMap (successOf analyze)).filter
        (fun r => decide (r.overall_score = s))) ∧
    (∀ rk, rk ∈ (batch_analyze_guests analyze guests).ranking →
      (rk.name, rk.score, rk.recommendation) ∈
        ((guests.filterMap (successOf analyze)).map
          (fun r => (r.guest_name, r.overall_score, r.recommendation)))) := by
  intro analyze guests
  have hloop := batchLoop_eq analyze guests
  have hperm : (List.insertionSort scoreGE (guests.filterMap (successOf analyze))).Perm
      (guests.filterMap (successOf analyze)) :=
    List.perm_insertionSort scoreGE _
  have htriple : (batch_analyze_guests analyze guests).ranking.map
      (fun rk => (rk.name, rk.score, rk.recommendation)) =
      (List.insertionSort scoreGE (guests.filterMap (successOf analyze))).map
        (fun r => (r.guest_name, r.overall_score, r.recommendation)) := by
    simp only [batch_analyze_guests, hloop]
    exact buildRanking_map_triple 0 _
  refine ⟨?_, ?_, ?_, ?_, ?_⟩
  · rw [htriple]
    exact hperm.map _
  · have hsorted : List.Sorted scoreGE
        (List.insertionSort scoreGE (guests.filterMap (successOf analyze))) :=
      List.sorted_insertionSort scoreGE _
    have hmap : (batch_analyze_guests analyze guests).ranking.map RankEntry.score =
        (List.insertionSort scoreGE (guests.filterMap (successOf analyze))).map
          SingleResult.overall_score := by
      simp only [batch_analyze_guests, hloop]
      exact buildRanking_map_score 0 _
    rw [hmap]
    exact List.Pairwise.map _ (fun a b hab => hab) hsorted
  · have hlen : (List.insertionSort scoreGE (guests.filterMap (successOf analyze))).length =
        (guests.filterMap (successOf analyze)).length := hperm.length_eq
    simp only [batch_analyze_guests, hloop]
    rw [buildRanking_map_rank 0 _, hlen]
  · intro s
    simp only [batch_analyze_guests, hloop]
    exact insertionSort_filter_score s _
  · intro rk hrk
    have : (rk.name, rk.score, rk.recommendation) ∈
        (batch_analyze_guests analyze guests).ranking.map
          (fun rk2 => (rk2.name, rk2.score, rk2.recommendation)) :=
      List.mem_map_of_mem _ hrk
    rw [htriple] at this
    exact (hperm.map
      (fun r => (r.guest_name, r.overall_score, r.recommendation))).mem_iff.mp this

theorem C8_batch_ranking_witness :
    ((⟨1, "Dan", 90, "HIGHLY_RECOMMENDED"⟩ : RankEntry).name,
     (⟨1, "Dan", 90, "HIGHLY_RECOMMENDED"⟩ : RankEntry).score,
     (⟨1, "Dan", 90, "HIGHLY_RECOMMENDED"⟩ : RankEntry).recommendation) ∈
      ((demoGuests.filterMap (successOf demoAnalyze)).map
        (fun r => (r.guest_name, r.overall_score, r.recommendation))) :=
  (C8_batch_ranking demoAnalyze demoGuests).2.2.2.2
    ⟨1, "Dan", 90, "HIGHLY_RECOMMENDED"⟩ (by decide)

/-! ### Determinism (C1) -/

/-- C1 (amended): with the wall-clock reading made explicit, two scorer calls
on identical guest/host inputs agree on every field of the result except the
embedded `analysis_timestamp`; there is no other source of variation. -/
theorem C1_scorer_deterministic_amended :
    ∀ (g : GuestProfile) (h : HostAnalysis) (t1 t2 : String),
    resultsAgreeExceptTimestamp (calculate_overall_relevance_score g h t1)
      (calculate_overall_relevance_score g h t2) := by
  intro g h t1 t2
  exact ⟨rfl, rfl, rfl, rfl, rfl, rfl, rfl, rfl, rfl, rfl, rfl, rfl⟩

/-- C1 (counterexample to the claim as stated): two calls with identical
guest/host inputs but different wall-clock readings produce results that are
not equal on every field — the `analysis_timestamp` field differs. -/
theorem C1_scorer_timestamp_counterexample :
    calculate_overall_relevance_score {} {} "2024-01-01T00:00:00" ≠
      calculate_overall_relevance_score {} {} "2024-01-01T00:00:01" := fun hcontra =>
  absurd (congrArg RelevanceResult.analysis_timestamp hcontra) (by decide)

/-! ### End-to-end scenario evaluation (C2) -/

lemma foldl_boost_const (e : String) (s : ℚ) : ∀ ct : List String,
    (∀ t ∈ ct, (pyIn (pyLower e) (pyLower t) || pyIn (pyLower t) (pyLower e)) = false) →
    ct.foldl (fun acc2 t =>
      if pyIn (pyLower e) (pyLower t) || pyIn (pyLower t) (pyLower e) then
        min 1 (acc2 + 0.2)
      else acc2) s = s
  | [], _ => rfl
  | t :: ct, hall => by
    have ht := hall t (by simp)
    simp only [List.foldl_cons, ht, Bool.false_eq_true, if_false]
    exact foldl_boost_const e s ct (fun t2 ht2 => hall t2 (by simp [ht2]))

lemma directMatchBoost_no_match : ∀ (ge ct : List String) (s : ℚ),
    (∀ e ∈ ge, ∀ t ∈ ct,
      (pyIn (pyLower e) (pyLower t) || pyIn (pyLower t) (pyLower e)) = false) →
    directMatchBoost ge ct s = s
  | [], _, _, _ => rfl
  | e :: ge, ct, s, hall => by
    simp only [directMatchBoost, List.foldl_cons]
    rw [show ct.foldl _ s = s from foldl_boost_const e s ct (hall e (by simp))]
    exact directMatchBoost_no_match ge ct s (fun e2 he2 => hall e2 (by simp [he2]))

lemma topic_eval_demo : calculate_topic_alignment guestAIStartups hostTechChannel = 0 := by
  have h1 : (guestAIStartups.expertise_areas.isEmpty ||
      hostTechChannel.channel_dna.primary_topics.isEmpty) = false := by decide
  have h2 : (keywordSet hostTechChannel.channel_dna.primary_topics).isEmpty = false := by
    decide
  have h3 : countKeywordMatches
      (keywordSet (guestAIStartups.expertise_areas ++ guestAIStartups.key_topics))
      (keywordSet hostTechChannel.channel_dna.primary_topics) = 0 := by decide
  have h4 : (keywordSet hostTechChannel.channel_dna.primary_topics).length = 2 := by decide
  simp only [calculate_topic_alignment, h1, Bool.false_eq_true, if_false, h2, h3, h4]
  rw [directMatchBoost_no_match _ _ _ (by decide)]
  norm_num [min_def, max_def]

lemma authority_eval_demo :
    calculate_authority_score guestAIStartups hostTechChannel = 9/10 := by
  have h1 : guestAIStartups.authority_indicators.isEmpty = false := by decide
  have h2 : (guestAIStartups.authority_indicators.filter (fun ind =>
      strongAuthorityTerms.any (fun t => pyIn t (pyLower ind)))).length = 2 := by decide
  have h3 : guestAIStartups.social_following.isEmpty = false := by decide
  have h4 : socialGet guestAIStartups.social_following "twitter" = "2M" := by decide
  have h5 : socialGet guestAIStartups.social_following "linkedin" = "unknown" := by decide
  have h6 : parseFloatParts (removeChar (pyLower "2M") 'm') = some (false, 2, 0, 0) := by
    decide
  have h7 : twitterFollowers? "2M" = some 2000000 := by
    have hk : pyIn "k" (pyLower "2M") = false := by decide
    have hm : pyIn "m" (pyLower "2M") = true := by decide
    simp only [twitterFollowers?, hk, Bool.false_eq_true, if_false, hm, if_true,
      parseFloatQ, h6, Option.map_some]
    norm_num [partsToQ]
  have h8 : guestAIStartups.previous_podcasts.getD [] = [] := rfl
  simp only [calculate_authority_score, h1, h2, h3, h4, h5, h7, h8,
    Bool.false_eq_true, if_false]
  rw [if_pos (show ("2M" : String) ≠ "unknown" from by decide)]
  norm_num [followerBonus, min_def]

lemma appeal_eval_demo :
    calculate_audience_appeal guestAIStartups hostTechChannel = 13/20 := by
  have h1 : guestAIStartups.social_following.isEmpty = false := by decide
  have h2 : (guestAIStartups.social_following.filter (fun kv =>
      kv.2 ≠ "" && kv.2 ≠ "unknown")).length = 1 := by decide
  have h3 : guestAIStartups.popularity_indicators.isEmpty = true := by decide
  have h4 : hostTechChannel.channel_dna.audience_profile = "" := rfl
  simp only [calculate_audience_appeal, h1, h2, h3, h4, Bool.false_eq_true, if_false]
  norm_num [min_def]

lemma uniq_eval_demo :
    calculate_uniqueness_factor guestAIStartups hostTechChannel = 7/10 := by
  have hscan : uniquenessScan (pyLower (guestAIStartups.name.getD ""))
      (guestAIStartups.expertise_areas.map pyLower) hostTechChannel.raw_video_data =
      (false, 0) := by decide
  have hbonus : industryBonusApplies guestAIStartups hostTechChannel = false := by decide
  simp only [calculate_uniqueness_factor, hscan, hbonus]
  norm_num [min_def, max_def]

lemma engagement_eval_demo :
    calculate_engagement_potential guestAIStartups hostTechChannel = 1/2 := by
  have h1 : (guestAIStartups.recent_activities.filter (fun a =>
      timelyTerms.any (fun t => pyIn t (pyLower a)))).length = 0 := by decide
  have h2 : (!hostTechChannel.channel_dna.engagement_drivers.isEmpty &&
      !guestAIStartups.key_topics.isEmpty) = false := by decide
  have h3 : guestAIStartups.previous_podcasts.getD [] = [] := rfl
  simp only [calculate_engagement_potential, h1, h2, h3, Bool.false_eq_true, if_false]
  norm_num [min_def]

lemma overall_eval_demo :
    overallFromSubscores defaultWeights 0 (9/10) (13/20) (7/10) (1/2) = 48 := by
  have hws : weightedSum defaultWeights 0 (9/10) (13/20) (7/10) (1/2) * 100 = 95/2 := by
    norm_num [weightedSum, defaultWeights]
  have hfloor : ⌊(95 : ℚ)/2⌋ = 47 := by
    rw [Int.floor_eq_iff]
    norm_num
  simp only [overallFromSubscores, hws, pyRound, hfloor]
  norm_num

lemma overall_score_demo : ∀ t : String,
    (calculate_overall_relevance_score guestAIStartups hostTechChannel
      t).overall_relevance_score = 48 := by
  intro t
  simp only [calculate_overall_relevance_score, topic_eval_demo, authority_eval_demo,
    appeal_eval_demo, uniq_eval_demo, engagement_eval_demo]
  exact overall_eval_demo

lemma recommendation_demo : ∀ t : String,
    (calculate_overall_relevance_score guestAIStartups hostTechChannel
      t).recommendation = "LOW_PRIORITY" := by
  intro t
  simp only [calculate_overall_relevance_score, topic_eval_demo, authority_eval_demo,
    appeal_eval_demo, uniq_eval_demo, engagement_eval_demo, overall_eval_demo]
  decide

/-- C2 (counterexample to the claim as stated): on the spec's end-to-end
scenario input the code computes topic_alignment strictly below 0.7,
authority_score different from 1.0, an overall score below 85, and a tier
other than HIGHLY_RECOMMENDED. -/
theorem C2_scenario_counterexample :
    calculate_topic_alignment guestAIStartups hostTechChannel < 0.7 ∧
    calculate_authority_score guestAIStartups hostTechChannel ≠ 1 ∧
    (calculate_overall_relevance_score guestAIStartups hostTechChannel
      "2024-06-01T00:00:00").overall_relevance_score < 85 ∧
    (calculate_overall_relevance_score guestAIStartups hostTechChannel
      "2024-06-01T00:00:00").recommendation ≠ "HIGHLY_RECOMMENDED" := by
  refine ⟨?_, ?_, ?_, ?_⟩
  · rw [topic_eval_demo]; norm_num
  · rw [authority_eval_demo]; norm_num
  · rw [overall_score_demo]; norm_num
  · rw [recommendation_demo]; decide

/-- C2 (amended): on the end-to-end scenario input the code yields
topic_alignment = 0 (the scenario's expertise and topic tokens share no
substring overlap, so neither the base ratio nor the direct-match bonus
fires), authority_score = 0.9 (0.5 base + 0.2 for two strong indicators
+ 0.2 for the 2M-follower tier; the 1.0 cap is not reached), an overall
score of 48, and tier LOW_PRIORITY. -/
theorem C2_scenario_amended :
    calculate_topic_alignment guestAIStartups hostTechChannel = 0 ∧
    calculate_authority_score guestAIStartups hostTechChannel = 9/10 ∧
    (calculate_overall_relevance_score guestAIStartups hostTechChannel
      "2024-06-01T00:00:00").overall_relevance_score = 48 ∧
    (calculate_overall_relevance_score guestAIStartups hostTechChannel
      "2024-06-01T00:00:00").recommendation = "LOW_PRIORITY" :=
  ⟨topic_eval_demo, authority_eval_demo, overall_score_demo _, recommendation_demo _⟩

end PodcastTracker
